import Mathlib

/-!
Verification of the relation-tuple authorization subsystem of the iam-app
repository: the Keto permission client (`src/lib/services/keto.service.ts`
and `src/lib/keto.ts`), the caching permission service
(`src/lib/services/permission.service.ts`) and the auth middleware
(`src/lib/middleware/auth.middleware.ts`).

Network I/O is embedded by passing the would-be upstream response as an
explicit argument: every function that performs a `fetch` takes the
response the network would deliver for that call, and returns, next to
the value the TypeScript promise settles with (`Except AppError α` for
a promise that can reject, plus the resolved value), a flag or list
recording which network calls were actually issued.
-/

namespace IamApp

/-- Equality of promise outcomes is decidable. -/
instance {ε α : Type} [DecidableEq ε] [DecidableEq α] : DecidableEq (Except ε α) := fun a b =>
  match a, b with
  | Except.error e1, Except.error e2 =>
      if h : e1 = e2 then Decidable.isTrue (by rw [h])
      else Decidable.isFalse (by intro hc; cases hc; exact h rfl)
  | Except.error _, Except.ok _ => Decidable.isFalse (by intro hc; cases hc)
  | Except.ok _, Except.error _ => Decidable.isFalse (by intro hc; cases hc)
  | Except.ok a1, Except.ok a2 =>
      if h : a1 = a2 then Decidable.isTrue (by rw [h])
      else Decidable.isFalse (by intro hc; cases hc; exact h rfl)

/-- JavaScript's `String.prototype.endsWith`, translated as a suffix
test on the string's characters. -/
def jsEndsWith (s sfx : String) : Bool :=
  sfx.data.isSuffixOf s.data

/-- The relation tuple of `src/lib/types` / `src/lib/keto.ts`:
`{ namespace, object, relation, subject }`, all strings. -/
structure RelationTuple where
  «namespace» : String
  object : String
  relation : String
  subject : String
deriving Repr, DecidableEq

/-- The application error classes of `src/lib/errors.ts`, plus `jsError`
for exceptions that are not application errors (a rejected `fetch`, a
JSON parse failure) which the TypeScript `catch` blocks inspect with
`instanceof`. -/
inductive AppError where
  | badRequest (msg : String)
  | unauthorized (msg : String)
  | forbidden (msg : String)
  | internalServerError (msg : String)
  | jsError (msg : String)
deriving Repr, DecidableEq

/-- Body of a 2xx response of the check endpoint: either JSON that fails
to parse, or an object whose `allowed` field is absent or a boolean. -/
inductive CheckBody where
  | malformed
  | fields (allowed : Option Bool)
deriving Repr, DecidableEq

/-- Outcome of a `fetch` against the check endpoint: the fetch promise
rejects, or the response is non-2xx with an error text, or 2xx with a
body. -/
inductive CheckResponse where
  | netFailure
  | httpError (text : String)
  | ok (body : CheckBody)
deriving Repr, DecidableEq

/-- Outcome of a `fetch` against the write (grant/revoke) endpoints. -/
inductive WriteResponse where
  | netFailure
  | httpError (text : String)
  | ok
deriving Repr, DecidableEq

/-- The `subject_id` field of a listed wire tuple: Keto may deliver it as
a plain string or as an object `{ id }`; the code reads
`rt.subject_id?.id || rt.subject_id`. -/
inductive WireSubject where
  | str (s : String)
  | idObj (id : String)
deriving Repr, DecidableEq

/-- A relation tuple as delivered by the list endpoint. -/
structure WireTuple where
  «namespace» : String
  object : String
  relation : String
  subject_id : WireSubject
deriving Repr, DecidableEq

/-- Body of a 2xx response of the list endpoint: unparseable JSON, or an
object whose `relation_tuples` field is absent or a list of wire
tuples. -/
inductive ListBody where
  | malformed
  | fields (relation_tuples : Option (List WireTuple))
deriving Repr, DecidableEq

/-- Outcome of a `fetch` against the list endpoint. -/
inductive ListResponse where
  | netFailure
  | httpError (text : String)
  | ok (body : ListBody)
deriving Repr, DecidableEq

/-! ## `src/lib/keto.ts` — the plain Keto client used by the permission
service.  Its `checkPermission` has no input validation and absorbs
every failure into `false`. -/

namespace Keto

/-- `checkPermission` of `src/lib/keto.ts`: `!response.ok → false`;
`data.allowed === true` otherwise; any thrown error (rejected fetch,
JSON parse) is caught and yields `false`. -/
def checkPermission (t : RelationTuple) (resp : CheckResponse) : Bool :=
  match resp with
  | CheckResponse.netFailure => false
  | CheckResponse.httpError _ => false
  | CheckResponse.ok CheckBody.malformed => false
  | CheckResponse.ok (CheckBody.fields allowed) => allowed == some true

/-- The tuple written by `makeGlobalAdmin` (`src/lib/middleware/index.ts`,
re-exported as `@/lib/keto`): `createRelation({ namespace: "GlobalRole",
object: "admin", relation: "members", subject: userId })`. -/
def makeGlobalAdminTuple (userId : String) : RelationTuple :=
  { «namespace» := "GlobalRole", object := "admin", relation := "members", subject := userId }

end Keto

/-! ## `src/lib/services/keto.service.ts` — the validating BFF client. -/

namespace KetoService

/-- The validation test shared by check/grant/revoke:
`!tuple.namespace || !tuple.object || !tuple.relation || !tuple.subject`
(for strings, falsy means empty). -/
def tupleInvalid (t : RelationTuple) : Bool :=
  t.«namespace» == "" || t.object == "" || t.relation == "" || t.subject == ""

/-- The `try` block of `checkPermission`: throws `BadRequestError` on an
invalid tuple before any fetch; then `!response.ok → return false`;
`data.allowed === true` otherwise; a rejected fetch or JSON parse
failure is a thrown `jsError`.  Second component: whether the network
call was issued. -/
def checkPermissionTry (t : RelationTuple) (resp : CheckResponse) :
    Except AppError Bool × Bool :=
  if tupleInvalid t then
    (Except.error (AppError.badRequest "Invalid permission tuple"), false)
  else
    match resp with
    | CheckResponse.netFailure => (Except.error (AppError.jsError "fetch failed"), true)
    | CheckResponse.httpError _ => (Except.ok false, true)
    | CheckResponse.ok CheckBody.malformed => (Except.error (AppError.jsError "invalid json"), true)
    | CheckResponse.ok (CheckBody.fields allowed) => (Except.ok (allowed == some true), true)

/-- `checkPermission` of `keto.service.ts`: the `catch` block returns
`false` for every thrown error — including the `BadRequestError` thrown
by its own validation — so the promise always resolves. -/
def checkPermission (t : RelationTuple) (resp : CheckResponse) :
    Except AppError Bool × Bool :=
  match checkPermissionTry t resp with
  | (Except.ok b, n) => (Except.ok b, n)
  | (Except.error _, n) => (Except.ok false, n)

/-- The boolean a caller that `await`s `checkPermission` observes. -/
def checkPermissionValue (t : RelationTuple) (resp : CheckResponse) : Bool :=
  match (checkPermission t resp).1 with
  | Except.ok b => b
  | Except.error _ => false

/-- `checkPermission` never rejects: its promise outcome is always the
resolved boolean. -/
theorem checkPermission_fst (t : RelationTuple) (resp : CheckResponse) :
    (checkPermission t resp).1 = Except.ok (checkPermissionValue t resp) := by
  unfold checkPermissionValue
  cases h : (checkPermission t resp).1 with
  | ok b => rfl
  | error e =>
    exfalso
    unfold checkPermission at h
    rcases htry : checkPermissionTry t resp with ⟨r, n⟩
    rw [htry] at h
    cases r <;> simp at h

/-- The `try` block of `grantPermission`. -/
def grantPermissionTry (t : RelationTuple) (resp : WriteResponse) :
    Except AppError Unit × Bool :=
  if tupleInvalid t then
    (Except.error (AppError.badRequest "Invalid permission tuple"), false)
  else
    match resp with
    | WriteResponse.netFailure => (Except.error (AppError.jsError "fetch failed"), true)
    | WriteResponse.httpError text =>
        (Except.error (AppError.internalServerError ("Failed to grant permission: " ++ text)), true)
    | WriteResponse.ok => (Except.ok (), true)

/-- `grantPermission`: the `catch` block rethrows `BadRequestError` and
`InternalServerError` and wraps anything else in
`InternalServerError("Failed to grant permission")`. -/
def grantPermission (t : RelationTuple) (resp : WriteResponse) :
    Except AppError Unit × Bool :=
  match grantPermissionTry t resp with
  | (Except.error (AppError.badRequest m), n) => (Except.error (AppError.badRequest m), n)
  | (Except.error (AppError.internalServerError m), n) =>
      (Except.error (AppError.internalServerError m), n)
  | (Except.error _, n) => (Except.error (AppError.internalServerError "Failed to grant permission"), n)
  | (Except.ok u, n) => (Except.ok u, n)

/-- The `try` block of `revokePermission`. -/
def revokePermissionTry (t : RelationTuple) (resp : WriteResponse) :
    Except AppError Unit × Bool :=
  if tupleInvalid t then
    (Except.error (AppError.badRequest "Invalid permission tuple"), false)
  else
    match resp with
    | WriteResponse.netFailure => (Except.error (AppError.jsError "fetch failed"), true)
    | WriteResponse.httpError text =>
        (Except.error (AppError.internalServerError ("Failed to revoke permission: " ++ text)), true)
    | WriteResponse.ok => (Except.ok (), true)

/-- `revokePermission`: same catch structure as `grantPermission`. -/
def revokePermission (t : RelationTuple) (resp : WriteResponse) :
    Except AppError Unit × Bool :=
  match revokePermissionTry t resp with
  | (Except.error (AppError.badRequest m), n) => (Except.error (AppError.badRequest m), n)
  | (Except.error (AppError.internalServerError m), n) =>
      (Except.error (AppError.internalServerError m), n)
  | (Except.error _, n) => (Except.error (AppError.internalServerError "Failed to revoke permission"), n)
  | (Except.ok u, n) => (Except.ok u, n)

/-- `rt.subject_id?.id || rt.subject_id`: the `id` of an object-shaped
subject, the string itself otherwise. -/
def wireSubjectId : WireSubject → String
  | WireSubject.str s => s
  | WireSubject.idObj id => id

/-- The mapping applied to each listed wire tuple. -/
def wireToTuple (rt : WireTuple) : RelationTuple :=
  { «namespace» := rt.«namespace», object := rt.object, relation := rt.relation,
    subject := wireSubjectId rt.subject_id }

/-- The `try` block of `listUserPermissions`: `BadRequestError` when
`userId` is empty; on a 2xx body, `data.relation_tuples || []` mapped to
relation tuples.  The optional namespace filter only alters the query
string. -/
def listUserPermissionsTry (userId : String) (ns : Option String) (resp : ListResponse) :
    Except AppError (List RelationTuple) × Bool :=
  if userId == "" then
    (Except.error (AppError.badRequest "userId is required"), false)
  else
    match resp with
    | ListResponse.netFailure => (Except.error (AppError.jsError "fetch failed"), true)
    | ListResponse.httpError text =>
        (Except.error (AppError.internalServerError ("Failed to list permissions: " ++ text)), true)
    | ListResponse.ok ListBody.malformed => (Except.error (AppError.jsError "invalid json"), true)
    | ListResponse.ok (ListBody.fields rts) => (Except.ok ((rts.getD []).map wireToTuple), true)

/-- `listUserPermissions`: rethrows `BadRequestError` and
`InternalServerError`, wraps anything else in
`InternalServerError("Failed to list user permissions")`. -/
def listUserPermissions (userId : String) (ns : Option String) (resp : ListResponse) :
    Except AppError (List RelationTuple) × Bool :=
  match listUserPermissionsTry userId ns resp with
  | (Except.error (AppError.badRequest m), n) => (Except.error (AppError.badRequest m), n)
  | (Except.error (AppError.internalServerError m), n) =>
      (Except.error (AppError.internalServerError m), n)
  | (Except.error _, n) =>
      (Except.error (AppError.internalServerError "Failed to list user permissions"), n)
  | (Except.ok l, n) => (Except.ok l, n)

/-- The `try` block of `listObjectPermissions`. -/
def listObjectPermissionsTry (ns obj : String) (resp : ListResponse) :
    Except AppError (List RelationTuple) × Bool :=
  if ns == "" || obj == "" then
    (Except.error (AppError.badRequest "namespace and object are required"), false)
  else
    match resp with
    | ListResponse.netFailure => (Except.error (AppError.jsError "fetch failed"), true)
    | ListResponse.httpError text =>
        (Except.error (AppError.internalServerError ("Failed to list permissions: " ++ text)), true)
    | ListResponse.ok ListBody.malformed => (Except.error (AppError.jsError "invalid json"), true)
    | ListResponse.ok (ListBody.fields rts) => (Except.ok ((rts.getD []).map wireToTuple), true)

/-- `listObjectPermissions`: same catch structure, wrapping message
`"Failed to list object permissions"`. -/
def listObjectPermissions (ns obj : String) (resp : ListResponse) :
    Except AppError (List RelationTuple) × Bool :=
  match listObjectPermissionsTry ns obj resp with
  | (Except.error (AppError.badRequest m), n) => (Except.error (AppError.badRequest m), n)
  | (Except.error (AppError.internalServerError m), n) =>
      (Except.error (AppError.internalServerError m), n)
  | (Except.error _, n) =>
      (Except.error (AppError.internalServerError "Failed to list object permissions"), n)
  | (Except.ok l, n) => (Except.ok l, n)

/-- The per-role tuple of `hasAnyRole` / `hasAllRoles`:
`{ namespace, object: role, relation: "is_" + role.toLowerCase(), subject: userId }`. -/
def roleTuple (ns role userId : String) : RelationTuple :=
  { «namespace» := ns, object := role, relation := "is_" ++ role.toLower, subject := userId }

/-- `hasAnyRole`: all per-role checks issued (concurrently), combined
with `.some`.  Second component: the tuples checked upstream. -/
def hasAnyRole (oracle : RelationTuple → CheckResponse) (userId : String)
    (roles : List String) (ns : String) : Bool × List RelationTuple :=
  let tuples := roles.map (fun role => roleTuple ns role userId)
  ((tuples.map (fun t => checkPermissionValue t (oracle t))).any (fun allowed => allowed), tuples)

/-- `hasAllRoles`: all per-role checks issued, combined with `.every`. -/
def hasAllRoles (oracle : RelationTuple → CheckResponse) (userId : String)
    (roles : List String) (ns : String) : Bool × List RelationTuple :=
  let tuples := roles.map (fun role => roleTuple ns role userId)
  ((tuples.map (fun t => checkPermissionValue t (oracle t))).all (fun allowed => allowed), tuples)

end KetoService

/-! ## `src/lib/services/permission.service.ts` — caching layer and
authorization policy.  The in-memory `Map` is embedded as an insertion
ordered association list; `Date.now()` is passed explicitly, one value
for the read of the clock at the cache-freshness test and one for the
read at the store. -/

namespace PermissionService

/-- `CacheEntry { allowed, timestamp }`. -/
structure CacheEntry where
  allowed : Bool
  timestamp : Nat
deriving Repr, DecidableEq

/-- The `permissionCache` map, as an insertion-ordered association
list with pairwise distinct keys. -/
abbrev Cache := List (String × CacheEntry)

/-- `CACHE_TTL = 5 * 60 * 1000` milliseconds. -/
def CACHE_TTL : Nat := 5 * 60 * 1000

/-- `getCacheKey`: the template string
`` `${tuple.namespace}:${tuple.object}:${tuple.relation}:${tuple.subject}` ``. -/
def getCacheKey (t : RelationTuple) : String :=
  t.«namespace» ++ ":" ++ t.object ++ ":" ++ t.relation ++ ":" ++ t.subject

/-- `Map.prototype.get`. -/
def mapGet (m : Cache) (k : String) : Option CacheEntry :=
  (m.find? (fun p => p.1 == k)).map (fun p => p.2)

/-- `Map.prototype.set`: updates the value in place when the key is
present, appends otherwise. -/
def mapSet (m : Cache) (k : String) (v : CacheEntry) : Cache :=
  if m.any (fun p => p.1 == k) then
    m.map (fun p => if p.1 == k then (k, v) else p)
  else
    m ++ [(k, v)]

/-- Result of one `checkPermissionCached` call: the returned boolean,
the cache afterwards, and whether the upstream Keto check was called. -/
structure CachedResult where
  value : Bool
  cache : Cache
  upstreamCalled : Bool
deriving Repr, DecidableEq

/-- `checkPermissionCached(tuple, skipCache = false)`: on a non-expired
cache hit (unless `skipCache`) return the cached `allowed` with no
upstream call; otherwise call `checkPermission` of `src/lib/keto.ts`
and store `{ allowed, timestamp: Date.now() }` under the key.
`oracle` gives the upstream response per tuple; `tRead`/`tStore` are the
two `Date.now()` reads. -/
def checkPermissionCached (oracle : RelationTuple → CheckResponse) (t : RelationTuple)
    (skipCache : Bool) (cache : Cache) (tRead tStore : Nat) : CachedResult :=
  let cacheKey := getCacheKey t
  let hit : Option Bool :=
    if skipCache then none
    else
      match mapGet cache cacheKey with
      | some cached =>
          if tRead - cached.timestamp < CACHE_TTL then some cached.allowed else none
      | none => none
  match hit with
  | some allowed => { value := allowed, cache := cache, upstreamCalled := false }
  | none =>
      let allowed := Keto.checkPermission t (oracle t)
      { value := allowed
        cache := mapSet cache cacheKey { allowed := allowed, timestamp := tStore }
        upstreamCalled := true }

/-- `invalidateUserCache(userId)`: deletes every entry whose key ends
with `` `:${userId}` ``. -/
def invalidateUserCache (userId : String) (cache : Cache) : Cache :=
  cache.filter (fun p => !(jsEndsWith p.1 (":" ++ userId)))

/-- An audit record as passed to `logAudit` of `audit.service.ts` (the
metadata is reduced to its `type` tag; the remaining metadata repeats
arguments already present). -/
structure AuditEvent where
  userId : String
  action : String
  resource : String
  result : String
  metaType : String
deriving Repr, DecidableEq

/-- Result of a policy call: decision, cache afterwards, audit records
emitted (in order), and the tuples passed to `checkPermissionCached`. -/
structure PolicyResult where
  value : Bool
  cache : Cache
  audits : List AuditEvent
  checked : List RelationTuple
deriving Repr, DecidableEq

/-- The tuple checked by `isGlobalAdmin`:
`{ namespace: "GlobalRole", object: "admin", relation: "members", subject: userId }`. -/
def globalAdminTuple (userId : String) : RelationTuple :=
  { «namespace» := "GlobalRole", object := "admin", relation := "members", subject := userId }

/-- `isGlobalAdmin(userId)`: checks the global-admin tuple through the
cache; on `true` emits one audit record (granted); on `false` emits
nothing. -/
def isGlobalAdmin (oracle : RelationTuple → CheckResponse) (userId : String)
    (cache : Cache) (tRead tStore : Nat) : PolicyResult :=
  let c := checkPermissionCached oracle (globalAdminTuple userId) false cache tRead tStore
  { value := c.value
    cache := c.cache
    audits :=
      if c.value then
        [{ userId := userId, action := "check_permission", resource := "GlobalRole:admin",
           result := "granted", metaType := "global_admin_check" }]
      else []
    checked := [globalAdminTuple userId] }

/-- The union type of `hasOrgPermission`'s `permission` parameter. -/
inductive OrgPermission where
  | manage_org
  | manage_users
  | manage_groups
  | manage_roles
  | view_org
  | is_member
deriving Repr, DecidableEq

/-- The string of each permission literal. -/
def OrgPermission.toRelation : OrgPermission → String
  | OrgPermission.manage_org => "manage_org"
  | OrgPermission.manage_users => "manage_users"
  | OrgPermission.manage_groups => "manage_groups"
  | OrgPermission.manage_roles => "manage_roles"
  | OrgPermission.view_org => "view_org"
  | OrgPermission.is_member => "is_member"

/-- `hasOrgPermission(userId, orgId, permission)`: global-admin
short-circuit, then the org-scoped cached check followed by an audit
record of its outcome.  `t1Read`/`t1Store` clock the admin check,
`t2Read`/`t2Store` the org check. -/
def hasOrgPermission (oracle : RelationTuple → CheckResponse) (userId orgId : String)
    (perm : OrgPermission) (cache : Cache) (t1Read t1Store t2Read t2Store : Nat) :
    PolicyResult :=
  let a := isGlobalAdmin oracle userId cache t1Read t1Store
  if a.value then
    { value := true, cache := a.cache, audits := a.audits, checked := a.checked }
  else
    let orgTuple : RelationTuple :=
      { «namespace» := "Organization", object := orgId, relation := perm.toRelation,
        subject := userId }
    let c := checkPermissionCached oracle orgTuple false a.cache t2Read t2Store
    { value := c.value
      cache := c.cache
      audits := a.audits ++
        [{ userId := userId, action := "check_permission",
           resource := "Organization:" ++ orgId ++ ":" ++ perm.toRelation,
           result := if c.value then "granted" else "denied",
           metaType := "org_permission_check" }]
      checked := a.checked ++ [orgTuple] }

end PermissionService

/-! ## `src/lib/middleware/auth.middleware.ts` — request-level
enforcement.  These use `checkPermission` of
`src/lib/services/keto.service.ts`. -/

namespace AuthMiddleware

/-- The session identity: only its `id` matters to the middleware. -/
structure Identity where
  id : String
deriving Repr, DecidableEq

/-- An Ory session: an optional identity plus a session id. -/
structure Session where
  identity : Option Identity
  id : String
deriving Repr, DecidableEq

/-- `UserContext` of `src/lib/types`. -/
structure UserContext where
  userId : String
  identity : Identity
  sessionId : String
deriving Repr, DecidableEq

/-- `requireAuth`: `UnauthorizedError("Authentication required")` without
a session, `UnauthorizedError("Invalid session")` when
`!session.identity?.id` (identity absent, or its `id` empty hence
falsy), else the user context. -/
def requireAuth (session : Option Session) : Except AppError UserContext :=
  match session with
  | none => Except.error (AppError.unauthorized "Authentication required")
  | some s =>
      match s.identity with
      | none => Except.error (AppError.unauthorized "Invalid session")
      | some ident =>
          if ident.id == "" then Except.error (AppError.unauthorized "Invalid session")
          else Except.ok { userId := ident.id, identity := ident, sessionId := s.id }

/-- The `{ namespace, object, relation }` argument of the permission
middlewares. -/
structure PermissionSpec where
  «namespace» : String
  object : String
  relation : String
deriving Repr, DecidableEq

/-- The tuple a permission spec is checked as, for a given caller. -/
def PermissionSpec.toTuple (p : PermissionSpec) (userId : String) : RelationTuple :=
  { «namespace» := p.«namespace», object := p.object, relation := p.relation,
    subject := userId }

/-- `requirePermission`: a denied check raises
`ForbiddenError("Permission required: namespace:object#relation")`; a
rejected check would propagate (it cannot occur, `checkPermission_fst`). -/
def requirePermission (ctx : UserContext) (perm : PermissionSpec)
    (oracle : RelationTuple → CheckResponse) : Except AppError Unit :=
  let t := perm.toTuple ctx.userId
  match (KetoService.checkPermission t (oracle t)).1 with
  | Except.error e => Except.error e
  | Except.ok true => Except.ok ()
  | Except.ok false =>
      Except.error (AppError.forbidden
        ("Permission required: " ++ perm.«namespace» ++ ":" ++ perm.object ++ "#" ++
          perm.relation))

/-- `requireAdmin`: `requireAuth`, then `requirePermission` against
`{ namespace: "GlobalRole", object: "admin", relation: "is_admin" }`. -/
def requireAdmin (session : Option Session) (oracle : RelationTuple → CheckResponse) :
    Except AppError UserContext :=
  match requireAuth session with
  | Except.error e => Except.error e
  | Except.ok ctx =>
      match requirePermission ctx
          { «namespace» := "GlobalRole", object := "admin", relation := "is_admin" } oracle with
      | Except.error e => Except.error e
      | Except.ok _ => Except.ok ctx

/-- `requireAnyPermission`: all checks issued (concurrently), OR-combined;
`ForbiddenError("Insufficient permissions")` when none passes.  Second
component: the tuples checked. -/
def requireAnyPermission (ctx : UserContext) (perms : List PermissionSpec)
    (oracle : RelationTuple → CheckResponse) : Except AppError Unit × List RelationTuple :=
  let tuples := perms.map (fun p => p.toTuple ctx.userId)
  let checks := tuples.map (fun t => KetoService.checkPermissionValue t (oracle t))
  (if checks.any (fun allowed => allowed) then Except.ok ()
   else Except.error (AppError.forbidden "Insufficient permissions"), tuples)

/-- `requireAllPermissions`: all checks issued, AND-combined;
`ForbiddenError("Insufficient permissions")` unless every check passes. -/
def requireAllPermissions (ctx : UserContext) (perms : List PermissionSpec)
    (oracle : RelationTuple → CheckResponse) : Except AppError Unit × List RelationTuple :=
  let tuples := perms.map (fun p => p.toTuple ctx.userId)
  let checks := tuples.map (fun t => KetoService.checkPermissionValue t (oracle t))
  (if checks.all (fun allowed => allowed) then Except.ok ()
   else Except.error (AppError.forbidden "Insufficient permissions"), tuples)

end AuthMiddleware

/-! ## Oracles used by concrete witnesses. -/

/-- Upstream that answers every check with `{ allowed: true }`. -/
def allowAll : RelationTuple → CheckResponse :=
  fun _ => CheckResponse.ok (CheckBody.fields (some true))

/-- Upstream that answers every check with `{ allowed: false }`. -/
def denyAll : RelationTuple → CheckResponse :=
  fun _ => CheckResponse.ok (CheckBody.fields (some false))

/-- Upstream holding exactly the tuples of `store`: a check answers
`{ allowed: t ∈ store }`. -/
def storeOracle (store : List RelationTuple) : RelationTuple → CheckResponse :=
  fun t => CheckResponse.ok (CheckBody.fields (some (decide (t ∈ store))))

/-! ## Claims -/

/-- C1: the repository's only admin-granting path (`makeGlobalAdmin`,
also used by `promoteToGlobalAdmin` and exercised by
`scripts/test-keto.ts`) writes `(GlobalRole, admin, members, userId)`,
and `isGlobalAdmin` recognises exactly that tuple — yet `requireAdmin`
authorizes against `(GlobalRole, admin, is_admin, userId)`.  Evaluated
at a permission store holding exactly the tuple `makeGlobalAdmin "u1"`
writes, a valid session for `u1` passes `isGlobalAdmin` but
`requireAdmin` raises `Forbidden`, contradicting the claim that
`requireAdmin` succeeds exactly for holders of the global-admin tuple
checked by `isGlobalAdmin`. -/
theorem requireAdmin_rejects_granted_global_admin :
    (PermissionService.isGlobalAdmin (storeOracle [Keto.makeGlobalAdminTuple "u1"]) "u1" [] 0 0).value
      = true
    ∧ AuthMiddleware.requireAdmin (some { identity := some { id := "u1" }, id := "sess-1" })
        (storeOracle [Keto.makeGlobalAdminTuple "u1"]) =
      Except.error (AppError.forbidden "Permission required: GlobalRole:admin#is_admin") :=
  ⟨by decide, by decide⟩

/-- C2 counterexample: on the tuple with empty `namespace`,
`checkPermission` does not fail `BadRequest` — its catch-all swallows
the internally thrown `BadRequestError` and the promise resolves with
`false` (still without a network call). -/
theorem checkPermission_swallows_badRequest :
    KetoService.checkPermission ⟨"", "doc1", "viewer", "u1"⟩
        (CheckResponse.ok (CheckBody.fields (some true))) = (Except.ok false, false)
    ∧ (KetoService.checkPermission ⟨"", "doc1", "viewer", "u1"⟩
        (CheckResponse.ok (CheckBody.fields (some true)))).1 ≠
      Except.error (AppError.badRequest "Invalid permission tuple") :=
  ⟨by decide, by decide⟩

/-- C2 amended: for every tuple with an empty field and every would-be
upstream response, `grantPermission` and `revokePermission` fail
`BadRequest` without a network call, while `checkPermission` resolves
with `false` without a network call (the `BadRequestError` it throws is
swallowed by its own fail-closed catch). -/
theorem emptyField_validation_behavior (t : RelationTuple)
    (h : t.«namespace» = "" ∨ t.object = "" ∨ t.relation = "" ∨ t.subject = "")
    (resp : CheckResponse) (wresp : WriteResponse) :
    KetoService.checkPermission t resp = (Except.ok false, false)
    ∧ KetoService.grantPermission t wresp =
        (Except.error (AppError.badRequest "Invalid permission tuple"), false)
    ∧ KetoService.revokePermission t wresp =
        (Except.error (AppError.badRequest "Invalid permission tuple"), false) := by
  have hv : KetoService.tupleInvalid t = true := by
    rcases h with h | h | h | h <;> simp [KetoService.tupleInvalid, h]
  refine ⟨?_, ?_, ?_⟩ <;>
    simp [KetoService.checkPermission, KetoService.checkPermissionTry,
      KetoService.grantPermission, KetoService.grantPermissionTry,
      KetoService.revokePermission, KetoService.revokePermissionTry, hv]

/-- C2 amended, witness at the tuple with empty `object`. -/
theorem emptyField_validation_behavior_witness :
    KetoService.checkPermission ⟨"ns", "", "r", "s"⟩ CheckResponse.netFailure =
      (Except.ok false, false)
    ∧ KetoService.grantPermission ⟨"ns", "", "r", "s"⟩ WriteResponse.ok =
        (Except.error (AppError.badRequest "Invalid permission tuple"), false)
    ∧ KetoService.revokePermission ⟨"ns", "", "r", "s"⟩ WriteResponse.ok =
        (Except.error (AppError.badRequest "Invalid permission tuple"), false) :=
  emptyField_validation_behavior ⟨"ns", "", "r", "s"⟩ (Or.inr (Or.inl rfl))
    CheckResponse.netFailure WriteResponse.ok

/-- C3 counterexample: when the upstream list fetch fails,
`listUserPermissions` rejects with `InternalServerError` — it does not
return the empty list. -/
theorem listUserPermissions_throws_on_failure :
    KetoService.listUserPermissions "u1" none ListResponse.netFailure =
      (Except.error (AppError.internalServerError "Failed to list user permissions"), true)
    ∧ (KetoService.listUserPermissions "u1" none ListResponse.netFailure).1 ≠ Except.ok [] :=
  ⟨by decide, by decide⟩

/-- C3 amended: for every non-empty `userId` (with optional namespace
filter) and every non-empty namespace/object pair, a failed or non-2xx
upstream list call makes `listUserPermissions` and
`listObjectPermissions` throw `InternalServerError` — they never return
the empty list on failure; on a 2xx response they return `[]` when the
body's `relation_tuples` field is absent or is the empty array. -/
theorem list_upstream_failure_raises_internalServerError
    (userId : String) (h : userId ≠ "") (ns : Option String)
    (nsp obj : String) (hn : nsp ≠ "") (ho : obj ≠ "") (text : String) :
    KetoService.listUserPermissions userId ns ListResponse.netFailure =
      (Except.error (AppError.internalServerError "Failed to list user permissions"), true)
    ∧ KetoService.listUserPermissions userId ns (ListResponse.httpError text) =
      (Except.error (AppError.internalServerError ("Failed to list permissions: " ++ text)), true)
    ∧ KetoService.listObjectPermissions nsp obj ListResponse.netFailure =
      (Except.error (AppError.internalServerError "Failed to list object permissions"), true)
    ∧ KetoService.listObjectPermissions nsp obj (ListResponse.httpError text) =
      (Except.error (AppError.internalServerError ("Failed to list permissions: " ++ text)), true)
    ∧ KetoService.listUserPermissions userId ns (ListResponse.ok (ListBody.fields none)) =
      (Except.ok [], true)
    ∧ KetoService.listUserPermissions userId ns (ListResponse.ok (ListBody.fields (some []))) =
      (Except.ok [], true)
    ∧ KetoService.listObjectPermissions nsp obj (ListResponse.ok (ListBody.fields none)) =
      (Except.ok [], true)
    ∧ KetoService.listObjectPermissions nsp obj (ListResponse.ok (ListBody.fields (some []))) =
      (Except.ok [], true) := by
  refine ⟨?_, ?_, ?_, ?_, ?_, ?_, ?_, ?_⟩ <;>
    simp [KetoService.listUserPermissions, KetoService.listUserPermissionsTry,
      KetoService.listObjectPermissions, KetoService.listObjectPermissionsTry, h, hn, ho]

/-- C3 amended, witness at `userId = "u1"`, namespace/object
`"Organization"/"org1"`, error text `"boom"`. -/
theorem list_upstream_failure_witness :
    KetoService.listUserPermissions "u1" none ListResponse.netFailure =
      (Except.error (AppError.internalServerError "Failed to list user permissions"), true)
    ∧ KetoService.listUserPermissions "u1" none (ListResponse.httpError "boom") =
      (Except.error (AppError.internalServerError ("Failed to list permissions: " ++ "boom")), true)
    ∧ KetoService.listObjectPermissions "Organization" "org1" ListResponse.netFailure =
      (Except.error (AppError.internalServerError "Failed to list object permissions"), true)
    ∧ KetoService.listObjectPermissions "Organization" "org1" (ListResponse.httpError "boom") =
      (Except.error (AppError.internalServerError ("Failed to list permissions: " ++ "boom")), true)
    ∧ KetoService.listUserPermissions "u1" none (ListResponse.ok (ListBody.fields none)) =
      (Except.ok [], true)
    ∧ KetoService.listUserPermissions "u1" none (ListResponse.ok (ListBody.fields (some []))) =
      (Except.ok [], true)
    ∧ KetoService.listObjectPermissions "Organization" "org1"
        (ListResponse.ok (ListBody.fields none)) = (Except.ok [], true)
    ∧ KetoService.listObjectPermissions "Organization" "org1"
        (ListResponse.ok (ListBody.fields (some []))) = (Except.ok [], true) :=
  list_upstream_failure_raises_internalServerError "u1" (by decide) none
    "Organization" "org1" (by decide) (by decide) "boom"

/-- C4: for every tuple with all four fields non-empty, a network
failure, a non-2xx response, a 2xx response with an unparseable body,
and a 2xx body without an `allowed` field all make `checkPermission`
resolve with `false`: it fails closed and never throws. -/
theorem checkPermission_fail_closed (t : RelationTuple)
    (h1 : t.«namespace» ≠ "") (h2 : t.object ≠ "") (h3 : t.relation ≠ "") (h4 : t.subject ≠ "")
    (text : String) :
    KetoService.checkPermission t CheckResponse.netFailure = (Except.ok false, true)
    ∧ KetoService.checkPermission t (CheckResponse.httpError text) = (Except.ok false, true)
    ∧ KetoService.checkPermission t (CheckResponse.ok CheckBody.malformed) = (Except.ok false, true)
    ∧ KetoService.checkPermission t (CheckResponse.ok (CheckBody.fields none)) =
        (Except.ok false, true) := by
  have hv : KetoService.tupleInvalid t = false := by
    simp [KetoService.tupleInvalid, h1, h2, h3, h4]
  refine ⟨?_, ?_, ?_, ?_⟩ <;>
    simp [KetoService.checkPermission, KetoService.checkPermissionTry, hv]

/-- C5: the full hit/miss dichotomy of `checkPermissionCached`: with
`skipCache = false` and a cache entry younger than the TTL under the
tuple's key, the cached `allowed` is returned with no upstream call and
the cache unchanged; with `skipCache = true`, a missing entry, or an
expired entry, the upstream check is called, the fresh result is stored
under the key with the store-time timestamp (overwriting any existing
entry), and returned. -/
theorem checkPermissionCached_policy
    (oracle : RelationTuple → CheckResponse) (t : RelationTuple)
    (cache : PermissionService.Cache) (tRead tStore : Nat) :
    (∀ e, PermissionService.mapGet cache (PermissionService.getCacheKey t) = some e →
        tRead - e.timestamp < PermissionService.CACHE_TTL →
        PermissionService.checkPermissionCached oracle t false cache tRead tStore =
          { value := e.allowed, cache := cache, upstreamCalled := false })
    ∧ (∀ skipCache : Bool,
        (skipCache = true ∨
          PermissionService.mapGet cache (PermissionService.getCacheKey t) = none ∨
          ∃ e, PermissionService.mapGet cache (PermissionService.getCacheKey t) = some e ∧
            PermissionService.CACHE_TTL ≤ tRead - e.timestamp) →
        PermissionService.checkPermissionCached oracle t skipCache cache tRead tStore =
          { value := Keto.checkPermission t (oracle t)
            cache := PermissionService.mapSet cache (PermissionService.getCacheKey t)
              { allowed := Keto.checkPermission t (oracle t), timestamp := tStore }
            upstreamCalled := true }) := by
  constructor
  · intro e he hfresh
    simp [PermissionService.checkPermissionCached, he, hfresh]
  · intro skipCache h
    rcases h with h | h | ⟨e, he, hstale⟩
    · subst h
      simp [PermissionService.checkPermissionCached]
    · cases skipCache <;> simp [PermissionService.checkPermissionCached, h]
    · cases skipCache <;>
        simp [PermissionService.checkPermissionCached, he, Nat.not_lt.mpr hstale]

/-- C5 witness: a fresh hit at age `1000 < TTL` returns the cached
`true` with no upstream call; the same state with `skipCache = true`
goes upstream (answering `false`) and overwrites the entry. -/
theorem checkPermissionCached_policy_witness :
    PermissionService.checkPermissionCached denyAll ⟨"n", "o", "r", "u"⟩ false
        [("n:o:r:u", { allowed := true, timestamp := 0 })] 1000 1000 =
      { value := true, cache := [("n:o:r:u", { allowed := true, timestamp := 0 })],
        upstreamCalled := false }
    ∧ PermissionService.checkPermissionCached denyAll ⟨"n", "o", "r", "u"⟩ true
        [("n:o:r:u", { allowed := true, timestamp := 0 })] 1000 1000 =
      { value := Keto.checkPermission ⟨"n", "o", "r", "u"⟩ (denyAll ⟨"n", "o", "r", "u"⟩)
        cache := PermissionService.mapSet [("n:o:r:u", { allowed := true, timestamp := 0 })]
          (PermissionService.getCacheKey ⟨"n", "o", "r", "u"⟩)
          { allowed := Keto.checkPermission ⟨"n", "o", "r", "u"⟩ (denyAll ⟨"n", "o", "r", "u"⟩),
            timestamp := 1000 }
        upstreamCalled := true } :=
  ⟨(checkPermissionCached_policy denyAll ⟨"n", "o", "r", "u"⟩
      [("n:o:r:u", { allowed := true, timestamp := 0 })] 1000 1000).1
      { allowed := true, timestamp := 0 } (by decide) (by decide),
   (checkPermissionCached_policy denyAll ⟨"n", "o", "r", "u"⟩
      [("n:o:r:u", { allowed := true, timestamp := 0 })] 1000 1000).2 true (Or.inl rfl)⟩

/-- `isGlobalAdmin` emits exactly its granted audit record when the
cached check answers true. -/
theorem isGlobalAdmin_audits_of_true (oracle : RelationTuple → CheckResponse)
    (userId : String) (cache : PermissionService.Cache) (tRead tStore : Nat)
    (h : (PermissionService.isGlobalAdmin oracle userId cache tRead tStore).value = true) :
    (PermissionService.isGlobalAdmin oracle userId cache tRead tStore).audits =
      [{ userId := userId, action := "check_permission", resource := "GlobalRole:admin",
         result := "granted", metaType := "global_admin_check" }] := by
  unfold PermissionService.isGlobalAdmin at h ⊢
  simp only at h
  simp [h]

/-- `isGlobalAdmin` emits nothing when the cached check answers false. -/
theorem isGlobalAdmin_audits_of_false (oracle : RelationTuple → CheckResponse)
    (userId : String) (cache : PermissionService.Cache) (tRead tStore : Nat)
    (h : (PermissionService.isGlobalAdmin oracle userId cache tRead tStore).value = false) :
    (PermissionService.isGlobalAdmin oracle userId cache tRead tStore).audits = [] := by
  unfold PermissionService.isGlobalAdmin at h ⊢
  simp only at h
  simp [h]

/-- C6: whenever the global-admin check resolves true,
`hasOrgPermission` returns true with the state produced by the admin
check alone: the only tuple ever passed to the cached checker is the
`GlobalRole` admin tuple — no `Organization`-namespace tuple is
checked. -/
theorem hasOrgPermission_admin_short_circuit
    (oracle : RelationTuple → CheckResponse) (userId orgId : String)
    (perm : PermissionService.OrgPermission) (cache : PermissionService.Cache)
    (t1R t1S t2R t2S : Nat)
    (h : (PermissionService.isGlobalAdmin oracle userId cache t1R t1S).value = true) :
    PermissionService.hasOrgPermission oracle userId orgId perm cache t1R t1S t2R t2S =
      { value := true
        cache := (PermissionService.isGlobalAdmin oracle userId cache t1R t1S).cache
        audits := (PermissionService.isGlobalAdmin oracle userId cache t1R t1S).audits
        checked := [PermissionService.globalAdminTuple userId] }
    ∧ (PermissionService.globalAdminTuple userId).«namespace» = "GlobalRole" := by
  constructor
  · have hchecked : (PermissionService.isGlobalAdmin oracle userId cache t1R t1S).checked =
        [PermissionService.globalAdminTuple userId] := by
      unfold PermissionService.isGlobalAdmin
      simp
    unfold PermissionService.hasOrgPermission
    simp only [h, if_true, ← hchecked]
  · rfl

/-- C6 witness: with an upstream that grants everything, the admin
check fires and `hasOrgPermission` short-circuits. -/
theorem hasOrgPermission_admin_short_circuit_witness :
    PermissionService.hasOrgPermission allowAll "u1" "org1"
        PermissionService.OrgPermission.manage_org [] 0 0 0 0 =
      { value := true
        cache := (PermissionService.isGlobalAdmin allowAll "u1" [] 0 0).cache
        audits := (PermissionService.isGlobalAdmin allowAll "u1" [] 0 0).audits
        checked := [PermissionService.globalAdminTuple "u1"] }
    ∧ (PermissionService.globalAdminTuple "u1").«namespace» = "GlobalRole" :=
  hasOrgPermission_admin_short_circuit allowAll "u1" "org1"
    PermissionService.OrgPermission.manage_org [] 0 0 0 0 (by decide)

/-- C7: every call of `hasOrgPermission` emits exactly one audit record
and its `result` field matches the final decision — `"granted"` for the
global-admin short-circuit (the admin check's granted record), and the
org check's own granted/denied record otherwise. -/
theorem hasOrgPermission_audits_final_decision
    (oracle : RelationTuple → CheckResponse) (userId orgId : String)
    (perm : PermissionService.OrgPermission) (cache : PermissionService.Cache)
    (t1R t1S t2R t2S : Nat) :
    (PermissionService.hasOrgPermission oracle userId orgId perm cache t1R t1S t2R t2S).audits.map
        (fun a => a.result) =
      [if (PermissionService.hasOrgPermission oracle userId orgId perm cache t1R t1S t2R t2S).value
        then "granted" else "denied"] := by
  cases hv : (PermissionService.isGlobalAdmin oracle userId cache t1R t1S).value
  · have haud := isGlobalAdmin_audits_of_false oracle userId cache t1R t1S hv
    unfold PermissionService.hasOrgPermission
    simp only [hv, Bool.false_eq_true, if_false, haud, List.nil_append]
    simp
  · have haud := isGlobalAdmin_audits_of_true oracle userId cache t1R t1S hv
    unfold PermissionService.hasOrgPermission
    simp only [hv, if_true, haud]
    simp

/-- C4 witness at the tuple `(Organization, org1, view_org, u1)` and
error text `"boom"`. -/
theorem checkPermission_fail_closed_witness :
    KetoService.checkPermission ⟨"Organization", "org1", "view_org", "u1"⟩
        CheckResponse.netFailure = (Except.ok false, true)
    ∧ KetoService.checkPermission ⟨"Organization", "org1", "view_org", "u1"⟩
        (CheckResponse.httpError "boom") = (Except.ok false, true)
    ∧ KetoService.checkPermission ⟨"Organization", "org1", "view_org", "u1"⟩
        (CheckResponse.ok CheckBody.malformed) = (Except.ok false, true)
    ∧ KetoService.checkPermission ⟨"Organization", "org1", "view_org", "u1"⟩
        (CheckResponse.ok (CheckBody.fields none)) = (Except.ok false, true) :=
  checkPermission_fail_closed ⟨"Organization", "org1", "view_org", "u1"⟩
    (by decide) (by decide) (by decide) (by decide) "boom"

/-- A string always ends with any of its appended suffixes. -/
theorem jsEndsWith_append (a b : String) : jsEndsWith (a ++ b) b = true := by
  simp [jsEndsWith, String.data_append]

/-- C8 counterexample: caching one check for the tuple
`(n, o, r, "a:u")` — subject `"a:u"` — creates one cache entry; then
`invalidateUserCache "u"` removes that entry although it belongs to the
different subject `"a:u"`, because its key `"n:o:r:a:u"` ends with
`":u"`.  The frame part of the claim fails. -/
theorem invalidateUserCache_removes_other_subject :
    (PermissionService.checkPermissionCached allowAll ⟨"n", "o", "r", "a:u"⟩ false [] 0 0).cache =
      [(PermissionService.getCacheKey ⟨"n", "o", "r", "a:u"⟩, { allowed := true, timestamp := 0 })]
    ∧ PermissionService.invalidateUserCache "u"
        (PermissionService.checkPermissionCached allowAll ⟨"n", "o", "r", "a:u"⟩ false [] 0 0).cache
      = []
    ∧ ("a:u" : String) ≠ "u" :=
  ⟨by decide, by decide, by decide⟩

/-- C8 amended: `invalidateUserCache u` keeps exactly the entries whose
key does not end with `":" ++ u` (values untouched); in particular every
entry keyed by a tuple whose subject is `u` is removed.  An entry of a
different subject is removed as well when its key happens to end with
`":" ++ u`. -/
theorem invalidateUserCache_exact (u : String) (cache : PermissionService.Cache)
    (k : String) (e : PermissionService.CacheEntry) (t : RelationTuple)
    (e2 : PermissionService.CacheEntry) :
    ((k, e) ∈ PermissionService.invalidateUserCache u cache ↔
      (k, e) ∈ cache ∧ jsEndsWith k (":" ++ u) = false)
    ∧ (t.subject = u →
        (PermissionService.getCacheKey t, e2) ∉ PermissionService.invalidateUserCache u cache) := by
  constructor
  · simp [PermissionService.invalidateUserCache, List.mem_filter]
  · intro hsub hmem
    have h1 : jsEndsWith (PermissionService.getCacheKey t) (":" ++ u) = false := by
      have := (List.mem_filter.mp hmem).2
      simpa using this
    have h2 : jsEndsWith (PermissionService.getCacheKey t) (":" ++ u) = true := by
      subst hsub
      have hkey : PermissionService.getCacheKey t =
          (t.«namespace» ++ ":" ++ t.object ++ ":" ++ t.relation) ++ (":" ++ t.subject) := by
        unfold PermissionService.getCacheKey
        rw [String.append_assoc]
      rw [hkey]
      exact jsEndsWith_append _ _
    rw [h1] at h2
    cases h2

/-- C8 amended, witness: removal and preservation at a concrete cache
holding one entry of subject `"u"` and one of subject `"w"`. -/
theorem invalidateUserCache_exact_witness :
    (("n:o:r:u", { allowed := true, timestamp := 0 }) ∈
        PermissionService.invalidateUserCache "u"
          [("n:o:r:u", { allowed := true, timestamp := 0 }),
           ("n:o:r:w", { allowed := false, timestamp := 3 })] ↔
      ("n:o:r:u", { allowed := true, timestamp := 0 }) ∈
          ([("n:o:r:u", { allowed := true, timestamp := 0 }),
            ("n:o:r:w", { allowed := false, timestamp := 3 })] : PermissionService.Cache)
        ∧ jsEndsWith "n:o:r:u" (":" ++ "u") = false)
    ∧ (PermissionService.getCacheKey ⟨"n", "o", "r", "u"⟩,
          ({ allowed := true, timestamp := 0 } : PermissionService.CacheEntry)) ∉
        PermissionService.invalidateUserCache "u"
          [("n:o:r:u", { allowed := true, timestamp := 0 }),
           ("n:o:r:w", { allowed := false, timestamp := 3 })] :=
  ⟨(invalidateUserCache_exact "u"
      [("n:o:r:u", { allowed := true, timestamp := 0 }),
       ("n:o:r:w", { allowed := false, timestamp := 3 })]
      "n:o:r:u" { allowed := true, timestamp := 0 } ⟨"n", "o", "r", "u"⟩
      { allowed := true, timestamp := 0 }).1,
   (invalidateUserCache_exact "u"
      [("n:o:r:u", { allowed := true, timestamp := 0 }),
       ("n:o:r:w", { allowed := false, timestamp := 3 })]
      "n:o:r:u" { allowed := true, timestamp := 0 } ⟨"n", "o", "r", "u"⟩
      { allowed := true, timestamp := 0 }).2 rfl⟩

/-- C9 counterexample: two different denied permissions produce the
same `Forbidden` error — the message of `requireAnyPermission` (and
`requireAllPermissions`) is the fixed string `"Insufficient
permissions"`, which cannot identify the denied
namespace/object/relation. -/
theorem requireAnyAll_forbidden_not_specific :
    (AuthMiddleware.requireAnyPermission ⟨"u1", ⟨"u1"⟩, "s1"⟩
        [⟨"Organization", "org1", "manage_org"⟩] denyAll).1 =
      Except.error (AppError.forbidden "Insufficient permissions")
    ∧ (AuthMiddleware.requireAnyPermission ⟨"u1", ⟨"u1"⟩, "s1"⟩
        [⟨"Document", "doc9", "viewer"⟩] denyAll).1 =
      (AuthMiddleware.requireAnyPermission ⟨"u1", ⟨"u1"⟩, "s1"⟩
        [⟨"Organization", "org1", "manage_org"⟩] denyAll).1
    ∧ (⟨"Organization", "org1", "manage_org"⟩ : AuthMiddleware.PermissionSpec) ≠
        ⟨"Document", "doc9", "viewer"⟩
    ∧ (AuthMiddleware.requireAllPermissions ⟨"u1", ⟨"u1"⟩, "s1"⟩
        [⟨"Organization", "org1", "manage_org"⟩] denyAll).1 =
      Except.error (AppError.forbidden "Insufficient permissions") :=
  ⟨by decide, by decide, by decide, by decide⟩

/-- C9 amended: on denial, `requirePermission`'s `Forbidden` carries the
specific `namespace:object#relation`; `requireAnyPermission` and
`requireAllPermissions` raise `Forbidden` with the fixed message
`"Insufficient permissions"` that does not name the denied tuples. -/
theorem forbidden_error_specificity
    (ctx : AuthMiddleware.UserContext) (perm : AuthMiddleware.PermissionSpec)
    (oracle : RelationTuple → CheckResponse)
    (hdeny : KetoService.checkPermissionValue (perm.toTuple ctx.userId)
        (oracle (perm.toTuple ctx.userId)) = false)
    (perms : List AuthMiddleware.PermissionSpec) (hne : perms ≠ [])
    (hall : ∀ p ∈ perms, KetoService.checkPermissionValue (p.toTuple ctx.userId)
        (oracle (p.toTuple ctx.userId)) = false) :
    AuthMiddleware.requirePermission ctx perm oracle =
      Except.error (AppError.forbidden
        ("Permission required: " ++ perm.«namespace» ++ ":" ++ perm.object ++ "#" ++ perm.relation))
    ∧ (AuthMiddleware.requireAnyPermission ctx perms oracle).1 =
      Except.error (AppError.forbidden "Insufficient permissions")
    ∧ (AuthMiddleware.requireAllPermissions ctx perms oracle).1 =
      Except.error (AppError.forbidden "Insufficient permissions") := by
  refine ⟨?_, ?_, ?_⟩
  · unfold AuthMiddleware.requirePermission
    simp only [KetoService.checkPermission_fst, hdeny]
  · unfold AuthMiddleware.requireAnyPermission
    simp
    exact hall
  · rcases hp : perms with _ | ⟨p0, rest⟩
    · exact absurd hp hne
    · have h0 : KetoService.checkPermissionValue (p0.toTuple ctx.userId)
          (oracle (p0.toTuple ctx.userId)) = false := by
        refine hall p0 ?_
        rw [hp]
        exact List.mem_cons_self _ _
      unfold AuthMiddleware.requireAllPermissions
      simp [h0]

/-- C9 amended, witness: one denied permission, checked through
`requirePermission`, `requireAnyPermission` and
`requireAllPermissions`. -/
theorem forbidden_error_specificity_witness :
    AuthMiddleware.requirePermission ⟨"u1", ⟨"u1"⟩, "s1"⟩ ⟨"Organization", "org1", "manage_org"⟩
        denyAll =
      Except.error (AppError.forbidden
        ("Permission required: " ++ "Organization" ++ ":" ++ "org1" ++ "#" ++ "manage_org"))
    ∧ (AuthMiddleware.requireAnyPermission ⟨"u1", ⟨"u1"⟩, "s1"⟩
        [⟨"Organization", "org1", "manage_org"⟩] denyAll).1 =
      Except.error (AppError.forbidden "Insufficient permissions")
    ∧ (AuthMiddleware.requireAllPermissions ⟨"u1", ⟨"u1"⟩, "s1"⟩
        [⟨"Organization", "org1", "manage_org"⟩] denyAll).1 =
      Except.error (AppError.forbidden "Insufficient permissions") :=
  forbidden_error_specificity ⟨"u1", ⟨"u1"⟩, "s1"⟩ ⟨"Organization", "org1", "manage_org"⟩
    denyAll (by decide) [⟨"Organization", "org1", "manage_org"⟩] (by decide) (by decide)

/-- C10: with an empty list, `hasAnyRole` returns `false` and
`hasAllRoles` returns `true`; `requireAnyPermission` raises `Forbidden`
and `requireAllPermissions` succeeds — in all four cases the list of
tuples checked upstream is empty. -/
theorem empty_permission_lists
    (oracle : RelationTuple → CheckResponse) (userId ns : String)
    (ctx : AuthMiddleware.UserContext) :
    KetoService.hasAnyRole oracle userId [] ns = (false, [])
    ∧ KetoService.hasAllRoles oracle userId [] ns = (true, [])
    ∧ AuthMiddleware.requireAnyPermission ctx [] oracle =
        (Except.error (AppError.forbidden "Insufficient permissions"), [])
    ∧ AuthMiddleware.requireAllPermissions ctx [] oracle = (Except.ok (), []) :=
  ⟨rfl, rfl, rfl, rfl⟩

end IamApp
